import Mathlib

/-!
Verification of the UavDrone_Sim scene core (src/src/components/Scene.tsx).

The editable scene state is a set of four entity collections (drones, docking
stations, station points a.k.a. waypoints, cargos).  The handlers embedded here
are the pure state transformations performed by the React component:

* `handleToggleLift` (Scene.tsx:1909-1997): the lift-platform stepper that
  drives `liftPosition` towards an extreme (0 or 1) in increments of 0.02 and
  snaps to the exact boundary on arrival;
* `handleLiftToLevel` (Scene.tsx:2000-2114): the stepper that drives
  `liftPosition` towards a per-level target value;
* `updatePropertiesPanel`'s lift status text (Scene.tsx:1486-1509);
* `handleToggleRunState` (Scene.tsx:1795-1906): run-mode snapshot / restore;
* `handleStationBindingChange` (Scene.tsx:2164-2238);
* `handleTakeOff`'s descend-phase completion (Scene.tsx:2411-2449);
* the Delete-key handler's drone branch (Scene.tsx:1598-1621) and
  `handleCargoDelete` (Scene.tsx:2735-2763);
* `handleRemoveCargo` (Scene.tsx:2766-3295) and its store-on-arrival step
  (Scene.tsx:3050-3072);
* the asset-id counters (Scene.tsx:562-564, 1115-1140, 1747-1792).

Numbers are modelled by `ℚ` (the source arithmetic is plain JS arithmetic on
positions and the normalized lift position).
-/

namespace UavSim

/-- 3D vectors `[x, y, z]` of Scene.tsx, as a triple of rationals. -/
abbrev Vec3 := ℚ × ℚ × ℚ

/-- `DroneData` (Scene.tsx:23-35). -/
structure DroneData where
  id : String
  position : Vec3
  rotation : Vec3
  scale : Vec3
  color : String
  selected : Bool
  hovering : Bool
  propellersActive : Bool
  modelName : String
  modelNumber : String
  cargoId : Option String
  deriving Repr, DecidableEq

/-- `CargoData` (Scene.tsx:38-43).  `droneId = ""` means "not carried". -/
structure CargoData where
  id : String
  position : Vec3
  droneId : String
  selected : Bool
  deriving Repr, DecidableEq

/-- `DockingStationData` (Scene.tsx:46-58). -/
structure DockingStationData where
  id : String
  position : Vec3
  rotation : Vec3
  scale : Vec3
  color : String
  selected : Bool
  modelName : String
  modelNumber : String
  liftPosition : Option ℚ
  boundStationId : Option String
  shelfOccupancy : Option (List Bool)
  deriving Repr, DecidableEq

/-- `StationPointData` (Scene.tsx:61-72). -/
structure StationPointData where
  id : String
  position : Vec3
  rotation : Vec3
  scale : Vec3
  color : String
  selected : Bool
  modelName : String
  modelNumber : String
  stationNumber : ℤ
  stationType : String
  deriving Repr, DecidableEq

/-! ## Lift actuator: drive to extreme (`handleToggleLift`, Scene.tsx:1909-1997)

One timer tick of the upward stepper: `currentPos += 0.02`, then clamp to 1
(Scene.tsx:1934-1938). -/

/-- One tick of the upward stepper: add the step `0.02` and clamp at `1`. -/
def liftStepUp (pos : ℚ) : ℚ :=
  if 1 < pos + 1/50 then 1 else pos + 1/50

/-- One tick of the downward stepper: add the step `-0.02` and clamp at `0`. -/
def liftStepDown (pos : ℚ) : ℚ :=
  if pos - 1/50 < 0 then 0 else pos - 1/50

theorem liftStepUp_lt (pos : ℚ) (h : ¬ 1 ≤ liftStepUp pos) :
    liftStepUp pos = pos + 1/50 ∧ pos + 1/50 < 1 := by
  unfold liftStepUp at *
  split_ifs at h ⊢ with hc
  · exact absurd le_rfl h
  · exact ⟨rfl, lt_of_not_le h⟩

theorem liftUp_measure_decr (pos : ℚ) (h : ¬ 1 ≤ liftStepUp pos) :
    (⌈(1 - liftStepUp pos) * 50⌉).toNat < (⌈(1 - pos) * 50⌉).toNat := by
  obtain ⟨he, hlt⟩ := liftStepUp_lt pos h
  rw [he]
  have h1 : (1 - (pos + 1/50)) * 50 = (1 - pos) * 50 - 1 := by ring
  have h2 : (0:ℚ) < (1 - (pos + 1/50)) * 50 := by linarith
  have h3 : ⌈(1 - (pos + 1/50)) * 50⌉ = ⌈(1 - pos) * 50⌉ - 1 := by
    rw [h1, Int.ceil_sub_one]
  have h4 : 0 < ⌈(1 - (pos + 1/50)) * 50⌉ := Int.ceil_pos.mpr h2
  omega

theorem liftStepDown_gt (pos : ℚ) (h : ¬ liftStepDown pos ≤ 0) :
    liftStepDown pos = pos - 1/50 ∧ 0 < pos - 1/50 := by
  unfold liftStepDown at *
  split_ifs at h ⊢ with hc
  · exact absurd le_rfl h
  · exact ⟨rfl, lt_of_not_le h⟩

theorem liftDown_measure_decr (pos : ℚ) (h : ¬ liftStepDown pos ≤ 0) :
    (⌈liftStepDown pos * 50⌉).toNat < (⌈pos * 50⌉).toNat := by
  obtain ⟨he, hlt⟩ := liftStepDown_gt pos h
  rw [he]
  have h1 : (pos - 1/50) * 50 = pos * 50 - 1 := by ring
  have h2 : (0:ℚ) < (pos - 1/50) * 50 := by linarith
  have h3 : ⌈(pos - 1/50) * 50⌉ = ⌈pos * 50⌉ - 1 := by rw [h1, Int.ceil_sub_one]
  have h4 : 0 < ⌈(pos - 1/50) * 50⌉ := Int.ceil_pos.mpr h2
  omega

/-- The `setInterval` loop of `handleToggleLift('up')` (Scene.tsx:1932-1995):
tick, and when the position reaches `1` the interval is cleared and the final
commit snaps `liftPosition` to the exact target value `1`
(Scene.tsx:1954-1964); otherwise keep ticking. -/
def liftLoopUp (pos : ℚ) : ℚ :=
  if 1 ≤ liftStepUp pos then 1 else liftLoopUp (liftStepUp pos)
termination_by (⌈(1 - pos) * 50⌉).toNat
decreasing_by exact liftUp_measure_decr pos (by assumption)

/-- The `setInterval` loop of `handleToggleLift('down')`, snapping to `0`. -/
def liftLoopDown (pos : ℚ) : ℚ :=
  if liftStepDown pos ≤ 0 then 0 else liftLoopDown (liftStepDown pos)
termination_by (⌈pos * 50⌉).toNat
decreasing_by exact liftDown_measure_decr pos (by assumption)

/-- `handleToggleLift('up')` acting on the selected station's `liftPosition`:
no-op when already at the top (`currentPosition >= 1`, Scene.tsx:1921-1924),
otherwise run the stepper loop. -/
def handleToggleLift_up (pos : ℚ) : ℚ :=
  if 1 ≤ pos then pos else liftLoopUp pos

/-- `handleToggleLift('down')` acting on the selected station's
`liftPosition`. -/
def handleToggleLift_down (pos : ℚ) : ℚ :=
  if pos ≤ 0 then pos else liftLoopDown pos

theorem liftLoopUp_eq_one (pos : ℚ) : liftLoopUp pos = 1 := by
  rw [liftLoopUp]
  split
  · rfl
  · exact liftLoopUp_eq_one (liftStepUp pos)
termination_by (⌈(1 - pos) * 50⌉).toNat
decreasing_by exact liftUp_measure_decr pos (by assumption)

theorem liftLoopDown_eq_zero (pos : ℚ) : liftLoopDown pos = 0 := by
  rw [liftLoopDown]
  split
  · rfl
  · exact liftLoopDown_eq_zero (liftStepDown pos)
termination_by (⌈pos * 50⌉).toNat
decreasing_by exact liftDown_measure_decr pos (by assumption)

/-- C2: from any starting `liftPosition` in `[0,1)`, `driveToExtreme(up)`
terminates with `liftPosition` exactly `1` (the final commit snaps to the
exact target, Scene.tsx:1958-1964); symmetrically `driveToExtreme(down)` from
`(0,1]` terminates exactly at `0`; and at the requested extreme the operation
is a no-op (Scene.tsx:1921-1924). -/
theorem driveToExtreme_terminates_exactly (pos : ℚ) (h0 : 0 ≤ pos) (h1 : pos ≤ 1) :
    (pos < 1 → handleToggleLift_up pos = 1) ∧
    (0 < pos → handleToggleLift_down pos = 0) ∧
    (pos = 1 → handleToggleLift_up pos = pos) ∧
    (pos = 0 → handleToggleLift_down pos = pos) := by
  refine ⟨fun hlt => ?_, fun hgt => ?_, fun he => ?_, fun he => ?_⟩
  · rw [handleToggleLift_up, if_neg (not_le.mpr hlt)]
    exact liftLoopUp_eq_one pos
  · rw [handleToggleLift_down, if_neg (not_le.mpr hgt)]
    exact liftLoopDown_eq_zero pos
  · rw [handleToggleLift_up, if_pos (le_of_eq he.symm)]
  · rw [handleToggleLift_down, if_pos (le_of_eq he)]

theorem driveToExtreme_terminates_exactly_witness :
    ((0:ℚ) ≤ 1/4 ∧ (1:ℚ)/4 ≤ 1) ∧
      handleToggleLift_up (1/4) = 1 ∧ handleToggleLift_down (1/4) = 0 := by
  have h := driveToExtreme_terminates_exactly (1/4) (by norm_num) (by norm_num)
  exact ⟨⟨by norm_num, by norm_num⟩, h.1 (by norm_num), h.2.1 (by norm_num)⟩

/-! ## Lift actuator: drive to a shelf level (`handleLiftToLevel`,
Scene.tsx:2000-2114) -/

/-- The per-level target height in metres (Scene.tsx:2028-2029):
`shelfStartY = 0`, `targetHeight = level === 1 ? shelfStartY : shelfStartY + 1`. -/
def levelTargetHeight (level : ℤ) : ℚ :=
  if level = 1 then 0 else 0 + 1

/-- The per-level target `liftPosition` (Scene.tsx:2032):
`targetPosition = targetHeight / 2.2`. -/
def levelTargetPosition (level : ℤ) : ℚ :=
  levelTargetHeight level / (22/10)

theorem levelLoop_measure_decr_up (target pos : ℚ) (h : ¬ target ≤ pos + 1/50) :
    (⌈(target - (pos + 1/50)) * 50⌉).toNat < (⌈(target - pos) * 50⌉).toNat := by
  have hlt : pos + 1/50 < target := lt_of_not_le h
  have h1 : (target - (pos + 1/50)) * 50 = (target - pos) * 50 - 1 := by ring
  have h2 : (0:ℚ) < (target - (pos + 1/50)) * 50 := by linarith
  have h3 : ⌈(target - (pos + 1/50)) * 50⌉ = ⌈(target - pos) * 50⌉ - 1 := by
    rw [h1, Int.ceil_sub_one]
  have h4 : 0 < ⌈(target - (pos + 1/50)) * 50⌉ := Int.ceil_pos.mpr h2
  omega

theorem levelLoop_measure_decr_down (target pos : ℚ) (h : ¬ pos - 1/50 ≤ target) :
    (⌈((pos - 1/50) - target) * 50⌉).toNat < (⌈(pos - target) * 50⌉).toNat := by
  have hlt : target < pos - 1/50 := lt_of_not_le h
  have h1 : ((pos - 1/50) - target) * 50 = (pos - target) * 50 - 1 := by ring
  have h2 : (0:ℚ) < ((pos - 1/50) - target) * 50 := by linarith
  have h3 : ⌈((pos - 1/50) - target) * 50⌉ = ⌈(pos - target) * 50⌉ - 1 := by
    rw [h1, Int.ceil_sub_one]
  have h4 : 0 < ⌈((pos - 1/50) - target) * 50⌉ := Int.ceil_pos.mpr h2
  omega

/-- The `setInterval` loop of `handleLiftToLevel` (Scene.tsx:2044-2112) with a
positive step `0.02`: `currentPos += step`; `reachedTarget` when the new
position reaches or passes the target, in which case the position is set to
the exact target value (Scene.tsx:2049-2056, 2075-2080). -/
def levelLoopUp (target pos : ℚ) : ℚ :=
  if target ≤ pos + 1/50 then target else levelLoopUp target (pos + 1/50)
termination_by (⌈(target - pos) * 50⌉).toNat
decreasing_by exact levelLoop_measure_decr_up target pos (by assumption)

/-- The `setInterval` loop of `handleLiftToLevel` with a negative step
`-0.02`. -/
def levelLoopDown (target pos : ℚ) : ℚ :=
  if pos - 1/50 ≤ target then target else levelLoopDown target (pos - 1/50)
termination_by (⌈(pos - target) * 50⌉).toNat
decreasing_by exact levelLoop_measure_decr_down target pos (by assumption)

theorem levelLoopUp_eq (target pos : ℚ) : levelLoopUp target pos = target := by
  rw [levelLoopUp]
  split
  · rfl
  · exact levelLoopUp_eq target (pos + 1/50)
termination_by (⌈(target - pos) * 50⌉).toNat
decreasing_by exact levelLoop_measure_decr_up target pos (by assumption)

theorem levelLoopDown_eq (target pos : ℚ) : levelLoopDown target pos = target := by
  rw [levelLoopDown]
  split
  · rfl
  · exact levelLoopDown_eq target (pos - 1/50)
termination_by (⌈(pos - target) * 50⌉).toNat
decreasing_by exact levelLoop_measure_decr_down target pos (by assumption)

/-- `handleLiftToLevel` (Scene.tsx:2000-2114) acting on the selected
station's `liftPosition`, returning the final `liftPosition`:

* a `level` outside `[1,2]` is rejected with a console warning and no state
  change (Scene.tsx:2009-2012) — callers only pass integers (`parseInt`,
  LiftControlPanel), so the check rejects every level outside `{1,2}`;
* a current position within `0.05` of the target is a no-op
  (Scene.tsx:2035-2037);
* otherwise the stepper runs with step `±0.02` chosen by the sign of
  `currentPosition - targetPosition` (Scene.tsx:2040) and snaps to the exact
  target on arrival. -/
def handleLiftToLevel (level : ℤ) (pos : ℚ) : ℚ :=
  if level < 1 ∨ 2 < level then pos
  else
    if |pos - levelTargetPosition level| < 1/20 then pos
    else if levelTargetPosition level < pos then levelLoopDown (levelTargetPosition level) pos
    else levelLoopUp (levelTargetPosition level) pos

theorem levelTargetPosition_one : levelTargetPosition 1 = 0 := by
  norm_num [levelTargetPosition, levelTargetHeight]

theorem levelTargetPosition_two : levelTargetPosition 2 = 5/11 := by
  norm_num [levelTargetPosition, levelTargetHeight]

theorem handleLiftToLevel_one_small (pos : ℚ) (h0 : 0 ≤ pos) (h1 : pos ≤ 1) :
    0 ≤ handleLiftToLevel 1 pos ∧ |handleLiftToLevel 1 pos| < 1/20 := by
  rw [handleLiftToLevel, if_neg (by omega), levelTargetPosition_one]
  split_ifs with htol hdir
  · rw [sub_zero] at htol
    exact ⟨h0, htol⟩
  · rw [levelLoopDown_eq]
    norm_num
  · rw [levelLoopUp_eq]
    norm_num

theorem handleLiftToLevel_two_from_bottom (pos : ℚ) (h0 : 0 ≤ pos)
    (h1 : pos < 1/20) : handleLiftToLevel 2 pos = 5/11 := by
  rw [handleLiftToLevel, if_neg (by omega), levelTargetPosition_two]
  have habs : |pos - 5/11| = 5/11 - pos := by
    rw [abs_of_nonpos (by linarith)]; ring
  rw [if_neg (by rw [habs]; linarith), if_neg (by simp only [not_lt]; linarith),
    levelLoopUp_eq]

theorem handleLiftToLevel_one_from_mid : handleLiftToLevel 1 (5/11) = 0 := by
  rw [handleLiftToLevel, if_neg (by omega), levelTargetPosition_one]
  have habs : |(5:ℚ)/11 - 0| = 5/11 := by norm_num
  rw [if_neg (by rw [habs]; norm_num), if_pos (by norm_num), levelLoopDown_eq]

/-- C8 counterexample: at starting `liftPosition = 0.04`, `driveToLevel(1)`
is a no-op (the `0.05` tolerance check at Scene.tsx:2035-2037 fires), so the
position after the first call is `0.04`, which is not within `0.001` of the
level-1 position value `0` reached by the third call — refuting the claim
that each of the three calls ends within `0.001` of the same per-level
value. -/
theorem driveToLevel_claimed_tolerance_fails :
    handleLiftToLevel 1 (1/25) = 1/25 ∧
      handleLiftToLevel 1
        (handleLiftToLevel 2 (handleLiftToLevel 1 (1/25))) = 0 ∧
      ¬ |handleLiftToLevel 1 (1/25) - levelTargetPosition 1| ≤ 1/1000 := by
  have habs : |(1:ℚ)/25 - 0| = 1/25 := by
    rw [sub_zero, abs_of_nonneg]; norm_num
  have hfirst : handleLiftToLevel 1 (1/25) = 1/25 := by
    rw [handleLiftToLevel, if_neg (by omega), levelTargetPosition_one,
      if_pos (by rw [habs]; norm_num)]
  refine ⟨hfirst, ?_, ?_⟩
  · rw [hfirst, handleLiftToLevel_two_from_bottom (1/25) (by norm_num) (by norm_num),
      handleLiftToLevel_one_from_mid]
  · rw [hfirst, levelTargetPosition_one, habs]
    norm_num

/-- C8 (amended): for every starting `liftPosition` in `[0,1]`, the call
sequence `driveToLevel(1)`, `driveToLevel(2)`, `driveToLevel(1)` ends within
the no-op tolerance `0.05` of the fixed level-1 value after the first call,
and exactly at the deterministic per-level values after the second and third
calls (`level 2 ↦ 5/11 = 1/2.2`, `level 1 ↦ 0`; arrival snaps exactly to the
target, Scene.tsx:2053-2056); and any integer level outside `{1,2}` is
rejected without changing the position (Scene.tsx:2009-2012). -/
theorem driveToLevel_deterministic (pos : ℚ) (h0 : 0 ≤ pos) (h1 : pos ≤ 1) :
    |handleLiftToLevel 1 pos - levelTargetPosition 1| < 1/20 ∧
      handleLiftToLevel 2 (handleLiftToLevel 1 pos) = levelTargetPosition 2 ∧
      handleLiftToLevel 1
        (handleLiftToLevel 2 (handleLiftToLevel 1 pos)) = levelTargetPosition 1 ∧
      (∀ level : ℤ, level < 1 ∨ 2 < level → ∀ q : ℚ, handleLiftToLevel level q = q) := by
  obtain ⟨hp0, hpabs⟩ := handleLiftToLevel_one_small pos h0 h1
  have hp1 : |handleLiftToLevel 1 pos| < 1/20 := hpabs
  have h2 : handleLiftToLevel 2 (handleLiftToLevel 1 pos) = 5/11 :=
    handleLiftToLevel_two_from_bottom _ hp0 (by rw [abs_of_nonneg hp0] at hp1; exact hp1)
  refine ⟨?_, ?_, ?_, ?_⟩
  · rw [levelTargetPosition_one, sub_zero]
    exact hp1
  · rw [h2, levelTargetPosition_two]
  · rw [h2, levelTargetPosition_one, handleLiftToLevel_one_from_mid]
  · intro level hlv q
    rw [handleLiftToLevel, if_pos hlv]

theorem driveToLevel_deterministic_witness :
    ((0:ℚ) ≤ 1 ∧ (1:ℚ) ≤ 1) ∧
      handleLiftToLevel 2 (handleLiftToLevel 1 1) = levelTargetPosition 2 ∧
      handleLiftToLevel 3 (1/2) = 1/2 := by
  have h := driveToLevel_deterministic 1 (by norm_num) (by norm_num)
  exact ⟨⟨by norm_num, by norm_num⟩, h.2.1, h.2.2.2 3 (by omega) (1/2)⟩

/-! ## Lift status text (`updatePropertiesPanel`, Scene.tsx:1486-1509) -/

/-- JavaScript `Math.round`: round half towards positive infinity. -/
def jsRound (x : ℚ) : ℤ := ⌊x + 1/2⌋

/-- The derived lift status text (Scene.tsx:1492-1509): exact `0` / `1` map
to the bottom / top labels, values within `0.01` of `0` or `1` are treated
the same, every other value maps to a moving label with the rounded
percentage. -/
def liftStatusText (liftPositionValue : ℚ) : String :=
  if liftPositionValue = 0 then "底部"
  else if liftPositionValue = 1 then "顶部"
  else if |liftPositionValue| < 1/100 then "底部"
  else if |liftPositionValue - 1| < 1/100 then "顶部"
  else "运动中 (" ++ toString (jsRound (liftPositionValue * 100)) ++ "%)"

/-- C9: the lift status text is a total function of `liftPosition`: `0` maps
to the bottom label, `1` to the top label, any position within `0.01` of `0`
or `1` is treated as exactly `0` or `1`, and every other position maps to a
moving label whose percentage is the position times 100 rounded to the
nearest integer (`Math.round`). -/
theorem liftStatusText_total :
    liftStatusText 0 = "底部" ∧ liftStatusText 1 = "顶部" ∧
      (∀ p : ℚ, |p| < 1/100 → liftStatusText p = "底部") ∧
      (∀ p : ℚ, |p - 1| < 1/100 → liftStatusText p = "顶部") ∧
      (∀ p : ℚ, ¬ |p| < 1/100 → ¬ |p - 1| < 1/100 →
        liftStatusText p = "运动中 (" ++ toString (jsRound (p * 100)) ++ "%)") := by
  refine ⟨by rw [liftStatusText, if_pos rfl], ?_, ?_, ?_, ?_⟩
  · rw [liftStatusText, if_neg (by norm_num), if_pos rfl]
  · intro p hp
    rcases eq_or_ne p 0 with h0 | h0
    · rw [liftStatusText, if_pos h0]
    · have h1 : p ≠ 1 := by
        intro he
        rw [he] at hp
        norm_num at hp
      rw [liftStatusText, if_neg h0, if_neg h1, if_pos hp]
  · intro p hp
    have h0 : p ≠ 0 := by
      intro he
      rw [he] at hp
      norm_num at hp
    rcases eq_or_ne p 1 with h1 | h1
    · rw [liftStatusText, if_neg h0, if_pos h1]
    · have hnot : ¬ |p| < 1/100 := by
        have hge : 99/100 < p := by
          rcases abs_sub_lt_iff.mp hp with ⟨ha, hb⟩
          linarith
        rw [abs_of_pos (by linarith)]
        linarith
      rw [liftStatusText, if_neg h0, if_neg h1, if_neg hnot, if_pos hp]
  · intro p hp0 hp1
    have h0 : p ≠ 0 := by
      intro he
      rw [he] at hp0
      norm_num at hp0
    have h1 : p ≠ 1 := by
      intro he
      rw [he] at hp1
      norm_num at hp1
    rw [liftStatusText, if_neg h0, if_neg h1, if_neg hp0, if_neg hp1]

theorem liftStatusText_total_witness : liftStatusText (1/2) = "运动中 (50%)" := by
  have h := liftStatusText_total.2.2.2.2 (1/2)
    (by rw [abs_of_nonneg (by norm_num : (0:ℚ) ≤ 1/2)]; norm_num)
    (by rw [abs_of_nonpos (by norm_num : (1:ℚ)/2 - 1 ≤ 0)]; norm_num)
  have hj : jsRound (1/2 * 100) = 50 := by
    norm_num [jsRound]
  rw [h, hj]
  rfl

/-! ## Takeoff arrival (`handleTakeOff`, descend-phase `onComplete`,
Scene.tsx:2411-2449) -/

/-- The descend-phase completion of `handleTakeOff`: set the drone's position
to the exact target-station position and branch on the station type — a
landing station (`起降站点`) stops propellers and clears hovering, a hover
station (`悬停站点`) keeps propellers active and sets hovering, any other
value behaves like landing (Scene.tsx:2413-2449). -/
def takeOffOnComplete (selId : String) (targetStation : StationPointData)
    (drones : List DroneData) : List DroneData :=
  drones.map (fun drone =>
    if drone.id = selId then
      if targetStation.stationType = "起降站点" then
        { drone with position := targetStation.position,
                     propellersActive := false, hovering := false }
      else if targetStation.stationType = "悬停站点" then
        { drone with position := targetStation.position,
                     propellersActive := true, hovering := true }
      else
        { drone with position := targetStation.position,
                     propellersActive := false, hovering := false }
    else drone)

/-- C5: when the three-phase flight sequence completes, the flown drone's
position equals the waypoint's position exactly, and the outcome branches on
the waypoint's station type: landing gives `propellersActive = false` and
`hovering = false`, hover gives `propellersActive = true` and
`hovering = true`. -/
theorem takeOff_arrival (selId : String) (targetStation : StationPointData)
    (drones : List DroneData) :
    ∀ d ∈ takeOffOnComplete selId targetStation drones, d.id = selId →
      d.position = targetStation.position ∧
        (targetStation.stationType = "起降站点" →
          d.propellersActive = false ∧ d.hovering = false) ∧
        (targetStation.stationType = "悬停站点" →
          d.propellersActive = true ∧ d.hovering = true) := by
  intro d hd hid
  obtain ⟨a, ha, hfa⟩ := List.mem_map.mp hd
  subst hfa
  have haid : a.id = selId := by
    by_contra hne
    rw [if_neg hne] at hid
    exact hne hid
  rw [if_pos haid]
  rw [if_pos haid] at hid
  rcases eq_or_ne targetStation.stationType "起降站点" with hlt | hlt
  · have hne : targetStation.stationType ≠ "悬停站点" := by
      rw [hlt]
      decide
    rw [if_pos hlt]
    exact ⟨rfl, fun _ => ⟨rfl, rfl⟩, fun hc => absurd hc hne⟩
  · rw [if_neg hlt]
    rcases eq_or_ne targetStation.stationType "悬停站点" with hh | hh
    · rw [if_pos hh]
      exact ⟨rfl, fun hc => absurd hc hlt, fun _ => ⟨rfl, rfl⟩⟩
    · rw [if_neg hh]
      exact ⟨rfl, fun _ => ⟨rfl, rfl⟩, fun hc => absurd hc hh⟩

/-- Sample landing waypoint from the spec's example scenario. -/
def sampleWaypointLanding : StationPointData :=
  { id := "w1", position := (10, 0, 10), rotation := (0, 0, 0),
    scale := (1, 1, 1), color := "#f1c40f", selected := false,
    modelName := "站点-01", modelNumber := "STP100001", stationNumber := 1,
    stationType := "起降站点" }

/-- Sample drone from the spec's example scenario. -/
def sampleDroneD1 : DroneData :=
  { id := "d1", position := (0, 0, 0), rotation := (0, 0, 0),
    scale := (1, 1, 1), color := "#ffffff", selected := true,
    hovering := false, propellersActive := false, modelName := "无人机-01",
    modelNumber := "UAV100001", cargoId := none }

/-- The drone of the example scenario after arrival. -/
def sampleDroneArrived : DroneData :=
  { sampleDroneD1 with position := (10, 0, 10), propellersActive := false,
                       hovering := false }

theorem takeOff_arrival_witness :
    sampleDroneArrived.position = sampleWaypointLanding.position ∧
      sampleDroneArrived.propellersActive = false ∧
      sampleDroneArrived.hovering = false := by
  have hmem : sampleDroneArrived ∈
      takeOffOnComplete "d1" sampleWaypointLanding [sampleDroneD1] := by
    decide
  have h := takeOff_arrival "d1" sampleWaypointLanding [sampleDroneD1]
    sampleDroneArrived hmem rfl
  exact ⟨h.1, (h.2.1 rfl).1, (h.2.1 rfl).2⟩

/-! ## Station binding (`handleStationBindingChange`, Scene.tsx:2164-2238) -/

/-- Resolution of the chosen option text to a station-point id
(Scene.tsx:2167-2169): `"未绑定"` means unbind, otherwise the first station
point with that display name. -/
def resolveStationId (newStationName : String)
    (stationPoints : List StationPointData) : Option String :=
  if newStationName = "未绑定" then none
  else (stationPoints.find? fun point =>
    decide (point.modelName = newStationName)).map (fun p => p.id)

/-- `handleStationBindingChange` (Scene.tsx:2164-2238) acting on the docking
station collection.  `none` is the rejection outcome: the chosen station
point is already bound by another docking station, an alert is shown and no
state changes (Scene.tsx:2172-2182).  `some stations` is the updated
collection: the selected docking station's `boundStationId` is replaced
(Scene.tsx:2215-2224). -/
def handleStationBindingChange (selId newStationName : String)
    (stationPoints : List StationPointData)
    (dockingStations : List DockingStationData) :
    Option (List DockingStationData) :=
  match resolveStationId newStationName stationPoints with
  | some nid =>
    if dockingStations.any (fun station =>
        decide (station.id ≠ selId) && decide (station.boundStationId = some nid)) then
      none
    else
      some (dockingStations.map (fun station =>
        if station.id = selId then { station with boundStationId := some nid }
        else station))
  | none =>
    some (dockingStations.map (fun station =>
      if station.id = selId then { station with boundStationId := none }
      else station))

/-- Two docking stations do not share a bound station point. -/
def noSharedBinding (a b : DockingStationData) : Prop :=
  a.boundStationId = none ∨ a.boundStationId ≠ b.boundStationId

instance (a b : DockingStationData) : Decidable (noSharedBinding a b) := by
  unfold noSharedBinding
  infer_instance

/-- At most one docking station is bound to any given station point. -/
def distinctBindings (l : List DockingStationData) : Prop :=
  l.Pairwise noSharedBinding

instance (l : List DockingStationData) : Decidable (distinctBindings l) := by
  unfold distinctBindings
  infer_instance

theorem noSharedBinding_symm {a b : DockingStationData}
    (h : noSharedBinding a b) : noSharedBinding b a := by
  rcases h with h | h
  · by_cases hb : b.boundStationId = none
    · exact Or.inl hb
    · refine Or.inr fun he => hb ?_
      rw [he, h]
  · by_cases hb : b.boundStationId = none
    · exact Or.inl hb
    · exact Or.inr fun he => h he.symm

theorem bind_update_pairwise (selId : String) (nb : Option String)
    (l : List DockingStationData)
    (hnd : (l.map (fun s => s.id)).Nodup)
    (hp : l.Pairwise noSharedBinding)
    (hok : ∀ st ∈ l, st.id ≠ selId → nb = none ∨ st.boundStationId ≠ nb) :
    (l.map (fun st =>
      if st.id = selId then { st with boundStationId := nb } else st)).Pairwise
      noSharedBinding := by
  induction l with
  | nil => exact List.Pairwise.nil
  | cons a l ih =>
    rw [List.map_cons, List.pairwise_cons]
    rw [List.map_cons, List.nodup_cons] at hnd
    rw [List.pairwise_cons] at hp
    refine ⟨?_, ih hnd.2 hp.2 (fun st hst hne => hok st (List.mem_cons_of_mem a hst) hne)⟩
    intro b' hb'
    obtain ⟨b, hb, hfb⟩ := List.mem_map.mp hb'
    subst hfb
    by_cases ha : a.id = selId
    · have hbne : b.id ≠ selId := by
        intro he
        exact hnd.1 (List.mem_map.mpr ⟨b, hb, by rw [he, ha]⟩)
      rw [if_pos ha, if_neg hbne]
      rcases hok b (List.mem_cons_of_mem a hb) hbne with h | h
      · exact Or.inl h
      · exact Or.inr fun he => h he.symm
    · rw [if_neg ha]
      by_cases hbid : b.id = selId
      · rw [if_pos hbid]
        rcases hok a (List.mem_cons_self a l) ha with h | h
        · by_cases hab : a.boundStationId = none
          · exact Or.inl hab
          · exact Or.inr (by rw [h]; exact hab)
        · exact Or.inr h
      · rw [if_neg hbid]
        exact hp.1 b hb

/-- C10: binding a docking station to a station point already bound by
another docking station is rejected (alert, `none`) with no state change;
and every successful binding preserves the invariant that at most one
docking station is bound to any given station point. -/
theorem stationBinding_exclusive (selId newStationName : String)
    (points : List StationPointData) (stations : List DockingStationData)
    (hnd : (stations.map (fun s => s.id)).Nodup)
    (hinv : distinctBindings stations) :
    (∀ nid, resolveStationId newStationName points = some nid →
        (∃ st ∈ stations, st.id ≠ selId ∧ st.boundStationId = some nid) →
        handleStationBindingChange selId newStationName points stations = none) ∧
      (∀ stations',
        handleStationBindingChange selId newStationName points stations = some stations' →
        distinctBindings stations') := by
  constructor
  · rintro nid hres ⟨st, hst, hne, hbd⟩
    have hany : stations.any (fun station =>
        decide (station.id ≠ selId) && decide (station.boundStationId = some nid)) = true := by
      rw [List.any_eq_true]
      refine ⟨st, hst, ?_⟩
      rw [Bool.and_eq_true, decide_eq_true_eq, decide_eq_true_eq]
      exact ⟨hne, hbd⟩
    simp only [handleStationBindingChange, hres, hany, if_true]
  · intro stations' hsucc
    unfold handleStationBindingChange at hsucc
    split at hsucc
    · rename_i nid hres
      split at hsucc
      · exact absurd hsucc (by simp)
      · rename_i hany
        have hok : ∀ st ∈ stations, st.id ≠ selId →
            (some nid : Option String) = none ∨ st.boundStationId ≠ some nid := by
          intro st hst hne
          refine Or.inr fun hbd => hany ?_
          rw [List.any_eq_true]
          refine ⟨st, hst, ?_⟩
          rw [Bool.and_eq_true, decide_eq_true_eq, decide_eq_true_eq]
          exact ⟨hne, hbd⟩
        have h := bind_update_pairwise selId (some nid) stations hnd hinv hok
        rw [Option.some_inj] at hsucc
        rw [← hsucc]
        exact h
    · have h := bind_update_pairwise selId none stations hnd hinv
        (fun st hst hne => Or.inl rfl)
      rw [Option.some_inj] at hsucc
      rw [← hsucc]
      exact h

/-- A docking station already bound to the sample waypoint `w1`. -/
def sampleStationBound : DockingStationData :=
  { id := "s1", position := (0, 0, 0), rotation := (0, 0, 0),
    scale := (1, 1, 1), color := "#2ecc71", selected := false,
    modelName := "接驳柜-01", modelNumber := "FCS100001",
    liftPosition := some 1, boundStationId := some "w1",
    shelfOccupancy := some [false, false, false, false] }

/-- A second, unbound docking station. -/
def sampleStationFree : DockingStationData :=
  { sampleStationBound with id := "s2", modelNumber := "FCS100002",
                            boundStationId := none }

theorem stationBinding_exclusive_witness :
    handleStationBindingChange "s2" "站点-01" [sampleWaypointLanding]
      [sampleStationBound, sampleStationFree] = none := by
  exact (stationBinding_exclusive "s2" "站点-01" [sampleWaypointLanding]
    [sampleStationBound, sampleStationFree] (by decide) (by decide)).1
    "w1" (by decide) ⟨sampleStationBound, by decide, by decide, by decide⟩

/-! ## Run-mode snapshot and restore (`handleToggleRunState`,
Scene.tsx:1795-1906)

Entering run mode stores the current collections as `originalDrones`,
`originalDockingStations`, `originalStationPoints` (Scene.tsx:1801-1804).
Leaving run mode maps every current entity back to its snapshot entry by id,
re-computing only the `selected` flag (and clearing every drone's `cargoId`),
and empties the cargo collection (Scene.tsx:1824-1877). -/

/-- Restore of the docking-station collection on leaving run mode
(Scene.tsx:1824-1838). -/
def exitRunStations (originals current : List DockingStationData)
    (selId selType : Option String) : List DockingStationData :=
  current.map (fun cur =>
    match originals.find? (fun orig => decide (orig.id = cur.id)) with
    | some orig =>
      { orig with
          selected := decide (selId = some cur.id) &&
            decide (selType = some "dockingStation") }
    | none =>
      { cur with
          selected := decide (selId = some cur.id) &&
            decide (selType = some "dockingStation") })

/-- Restore of the drone collection on leaving run mode, clearing every
`cargoId` (Scene.tsx:1841-1857). -/
def exitRunDrones (originals current : List DroneData)
    (selId selType : Option String) : List DroneData :=
  current.map (fun cur =>
    match originals.find? (fun orig => decide (orig.id = cur.id)) with
    | some orig =>
      { orig with
          cargoId := none,
          selected := decide (selId = some cur.id) &&
            decide (selType = some "drone") }
    | none =>
      { cur with
          cargoId := none,
          selected := decide (selId = some cur.id) &&
            decide (selType = some "drone") })

/-- Restore of the station-point collection on leaving run mode
(Scene.tsx:1860-1874). -/
def exitRunPoints (originals current : List StationPointData)
    (selId selType : Option String) : List StationPointData :=
  current.map (fun cur =>
    match originals.find? (fun orig => decide (orig.id = cur.id)) with
    | some orig =>
      { orig with
          selected := decide (selId = some cur.id) &&
            decide (selType = some "stationPoint") }
    | none =>
      { cur with
          selected := decide (selId = some cur.id) &&
            decide (selType = some "stationPoint") })

/-- Leaving run mode replaces the cargo collection by the empty list
(`setCargos([])`, Scene.tsx:1877). -/
def exitRunCargos : List CargoData := []

theorem find?_eq_self_of_nodup {α : Type} (idOf : α → String) {l : List α}
    (hnd : (l.map idOf).Nodup) {a : α} (ha : a ∈ l) :
    l.find? (fun x => decide (idOf x = idOf a)) = some a := by
  induction l with
  | nil => cases ha
  | cons b l ih =>
    rw [List.map_cons, List.nodup_cons] at hnd
    by_cases hb : idOf b = idOf a
    · have hab : b = a := by
        rcases List.mem_cons.mp ha with h | h
        · exact h.symm
        · exact absurd (hb ▸ List.mem_map.mpr ⟨a, h, rfl⟩) hnd.1
      rw [List.find?_cons_of_pos _ (by rw [decide_eq_true_eq]; exact hb), hab]
    · have hal : a ∈ l := by
        rcases List.mem_cons.mp ha with h | h
        · exact absurd (by rw [h]) hb
        · exact h
      rw [List.find?_cons_of_neg _ (by rw [decide_eq_true_eq]; exact hb)]
      exact ih hnd.2 hal

theorem find?_drone_self {l : List DroneData}
    (hnd : (l.map (fun d => d.id)).Nodup) {a : DroneData} (ha : a ∈ l) :
    l.find? (fun x => decide (x.id = a.id)) = some a :=
  find?_eq_self_of_nodup (fun d => d.id) hnd ha

theorem find?_station_self {l : List DockingStationData}
    (hnd : (l.map (fun s => s.id)).Nodup) {a : DockingStationData} (ha : a ∈ l) :
    l.find? (fun x => decide (x.id = a.id)) = some a :=
  find?_eq_self_of_nodup (fun s => s.id) hnd ha

theorem find?_point_self {l : List StationPointData}
    (hnd : (l.map (fun p => p.id)).Nodup) {a : StationPointData} (ha : a ∈ l) :
    l.find? (fun x => decide (x.id = a.id)) = some a :=
  find?_eq_self_of_nodup (fun p => p.id) hnd ha

/-- C1: entering run mode and leaving it again with no simulation actions in
between (so the live collections still equal the snapshot) restores the
drone, docking-station and station-point collections to their pre-enter
values up to the `selected` flag, clears every drone's `cargoId`, and leaves
the cargo collection empty. -/
theorem enterRun_exitRun_restores (drones : List DroneData)
    (stations : List DockingStationData) (points : List StationPointData)
    (selId selType : Option String)
    (hd : (drones.map (fun d => d.id)).Nodup)
    (hs : (stations.map (fun s => s.id)).Nodup)
    (hp : (points.map (fun p => p.id)).Nodup) :
    (exitRunStations stations stations selId selType).map
        (fun s => { s with selected := false }) =
      stations.map (fun s => { s with selected := false }) ∧
    (exitRunDrones drones drones selId selType).map
        (fun d => { d with selected := false }) =
      drones.map (fun d => { d with selected := false, cargoId := none }) ∧
    (exitRunPoints points points selId selType).map
        (fun p => { p with selected := false }) =
      points.map (fun p => { p with selected := false }) ∧
    exitRunCargos = [] ∧
    (∀ d ∈ exitRunDrones drones drones selId selType, d.cargoId = none) := by
  refine ⟨?_, ?_, ?_, rfl, ?_⟩
  · rw [exitRunStations, List.map_map]
    apply List.map_congr_left
    intro a ha
    simp only [Function.comp_apply]
    rw [find?_station_self hs ha]
  · rw [exitRunDrones, List.map_map]
    apply List.map_congr_left
    intro a ha
    simp only [Function.comp_apply]
    rw [find?_drone_self hd ha]
  · rw [exitRunPoints, List.map_map]
    apply List.map_congr_left
    intro a ha
    simp only [Function.comp_apply]
    rw [find?_point_self hp ha]
  · intro d hd'
    obtain ⟨a, ha, hfa⟩ := List.mem_map.mp hd'
    rw [find?_drone_self hd ha] at hfa
    rw [← hfa]

theorem enterRun_exitRun_restores_witness :
    (exitRunDrones [sampleDroneD1] [sampleDroneD1] (some "d1") (some "drone")).map
        (fun d => { d with selected := false }) =
      [sampleDroneD1].map (fun d => { d with selected := false, cargoId := none }) ∧
      exitRunCargos = [] := by
  have h := enterRun_exitRun_restores [sampleDroneD1] [sampleStationBound]
    [sampleWaypointLanding] (some "d1") (some "drone")
    (by decide) (by decide) (by decide)
  exact ⟨h.2.1, h.2.2.2.1⟩

/-! ## Entity deletion (Delete-key handler, Scene.tsx:1592-1701, and
`handleCargoDelete`, Scene.tsx:2735-2763) -/

/-- The Delete/Backspace key handler's drone branch (Scene.tsx:1598-1621):
the selected drone is filtered out of the drone collection; the cargo
collection is not touched by this branch. -/
def deleteDroneByKey (idToDelete : String) (drones : List DroneData)
    (cargos : List CargoData) : List DroneData × List CargoData :=
  (drones.filter (fun d => decide (d.id ≠ idToDelete)), cargos)

/-- `handleCargoDelete` (Scene.tsx:2735-2763): clear `cargoId` on every drone
that carries the deleted cargo, then remove the cargo. -/
def handleCargoDelete (cargoId : String) (drones : List DroneData)
    (cargos : List CargoData) : List DroneData × List CargoData :=
  (drones.map (fun drone =>
      if drone.cargoId = some cargoId then { drone with cargoId := none }
      else drone),
   cargos.filter (fun cargo => decide (cargo.id ≠ cargoId)))

/-- Rendering position of a cargo (Scene.tsx:499-521): while `droneId` names
an existing drone the cargo follows it (`0.4` above); otherwise the stored
`position` field is the fallback. -/
def cargoRenderPosition (drones : List DroneData) (cargo : CargoData) : Vec3 :=
  if cargo.droneId ≠ "" then
    match drones.find? (fun d => decide (d.id = cargo.droneId)) with
    | some associatedDrone =>
      (associatedDrone.position.1, associatedDrone.position.2.1 + 2/5,
       associatedDrone.position.2.2)
    | none => cargo.position
  else cargo.position

/-- A cargo carried by the sample drone `d1`. -/
def sampleCargoC1 : CargoData :=
  { id := "c1", position := (1, 2, 3), droneId := "d1", selected := false }

/-- The sample drone `d1`, carrying `c1`. -/
def sampleDroneCarrying : DroneData :=
  { sampleDroneD1 with cargoId := some "c1" }

/-- C6 counterexample: deleting drone `d1` while it carries cargo `c1`
removes the drone but leaves the cargo's `droneId` equal to `"d1"` — a
reference to a drone that no longer exists, refuting the claim that the
delete operation clears the carried cargo's `droneId`. -/
theorem deleteDrone_leaves_dangling_droneId :
    (deleteDroneByKey "d1" [sampleDroneCarrying] [sampleCargoC1]).1 = [] ∧
      (deleteDroneByKey "d1" [sampleDroneCarrying] [sampleCargoC1]).2 =
        [sampleCargoC1] ∧
      sampleDroneCarrying.cargoId = some "c1" ∧
      sampleCargoC1.droneId = "d1" ∧ sampleCargoC1.droneId ≠ "" := by
  decide

/-- C6 (amended): deleting a drone leaves the cargo collection — including
any carried cargo's `droneId` — unchanged, so the dangling reference is only
neutralised downstream: the renderer falls back to the cargo's stored
absolute position once the referenced drone no longer exists; deleting a
cargo, by contrast, does clear the carrying drone's `cargoId`. -/
theorem drone_delete_cargo_refs (idToDelete : String) (drones : List DroneData)
    (cargos : List CargoData) :
    (deleteDroneByKey idToDelete drones cargos).2 = cargos ∧
      (∀ c : CargoData, c.droneId = idToDelete →
        cargoRenderPosition (deleteDroneByKey idToDelete drones cargos).1 c =
          c.position) ∧
      (∀ cid, ∀ d ∈ (handleCargoDelete cid drones cargos).1,
        d.cargoId ≠ some cid) ∧
      (∀ cid, ∀ c ∈ (handleCargoDelete cid drones cargos).2, c.id ≠ cid) := by
  refine ⟨rfl, ?_, ?_, ?_⟩
  · intro c hc
    rw [cargoRenderPosition]
    split_ifs with hne
    · have hnone : (deleteDroneByKey idToDelete drones cargos).1.find?
          (fun d => decide (d.id = c.droneId)) = none := by
        rw [List.find?_eq_none]
        intro d hd
        rw [deleteDroneByKey] at hd
        have := (List.mem_filter.mp hd).2
        rw [decide_eq_true_eq] at this
        rw [decide_eq_true_eq]
        rw [hc]
        exact this
      rw [hnone]
    · rfl
  · intro cid d hd
    obtain ⟨a, ha, hfa⟩ := List.mem_map.mp hd
    by_cases hca : a.cargoId = some cid
    · rw [if_pos hca] at hfa
      rw [← hfa]
      simp
    · rw [if_neg hca] at hfa
      rw [← hfa]
      exact hca
  · intro cid c hc
    have := (List.mem_filter.mp hc).2
    rw [decide_eq_true_eq] at this
    exact this

theorem drone_delete_cargo_refs_witness :
    cargoRenderPosition
        (deleteDroneByKey "d1" [sampleDroneCarrying] [sampleCargoC1]).1
        sampleCargoC1 = (1, 2, 3) := by
  have h := (drone_delete_cargo_refs "d1" [sampleDroneCarrying]
    [sampleCargoC1]).2.1 sampleCargoC1 rfl
  exact h.trans rfl

/-! ## Cargo hand-off (`handleRemoveCargo`, Scene.tsx:2766-3295, and its
store-on-arrival step, Scene.tsx:3026-3072) -/

/-- JavaScript `Array.prototype.findIndex`, with `none` for the `-1`
not-found result. -/
def jsFindIndex {α : Type} (p : α → Bool) : List α → Option ℕ
  | [] => none
  | a :: l => if p a then some 0 else (jsFindIndex p l).map (· + 1)

/-- Squared horizontal distance.  The source compares
`Math.sqrt(dx^2 + dz^2) <= 2` (Scene.tsx:2776-2782); for nonnegative
radicands this is equivalent to `dx^2 + dz^2 ≤ 4`. -/
def horizDistSq (a b : Vec3) : ℚ :=
  (a.1 - b.1) * (a.1 - b.1) + (a.2.2 - b.2.2) * (a.2.2 - b.2.2)

/-- The cargo's initial position on the lift platform, a function of the
station's current `liftPosition` (Scene.tsx:2811-2818):
`liftHeight = 0.5 + 2.2 * currentLiftPosition`, x offset `6/2 - 0.5 - 2.0/2`,
y offset `0.2 + liftHeight + 0.3`. -/
def cargoLiftSurfacePosition (bds : DockingStationData) : Vec3 :=
  let currentLiftPosition := bds.liftPosition.getD 1
  let liftHeight := 1/2 + (11/5) * currentLiftPosition
  (bds.position.1 + (6/2 - 1/2 - 2/2),
   bds.position.2.1 + 1/5 + liftHeight + 3/10,
   bds.position.2.2)

/-- The target shelf level for a slot index: `0,1` are level 1, `2,3` are
level 2 (Scene.tsx:2802-2805). -/
def slotTargetLevel (emptySlotIndex : ℕ) : ℕ :=
  if emptySlotIndex < 2 then 1 else 2

/-- Left side for even slot indices (Scene.tsx:2805). -/
def slotIsLeftSide (emptySlotIndex : ℕ) : Bool :=
  decide (emptySlotIndex % 2 = 0)

/-- The cargo's final fixed shelf coordinate for a slot
(Scene.tsx:3027-3048); the y coordinate is absolute, as in the source. -/
def cargoShelfPosition (bds : DockingStationData) (emptySlotIndex : ℕ) : Vec3 :=
  let shelfWidth : ℚ := 3
  let shelfThickness : ℚ := 1/20
  let compartmentHeight : ℚ := 1
  let shelfX : ℚ := -(6 : ℚ)/5
  let shelfZ : ℚ := 0
  let shelfStartY : ℚ := 1/5 + 1/2
  let cargoShelfX : ℚ :=
    if slotIsLeftSide emptySlotIndex then -shelfWidth/4 else shelfWidth/4
  let cargoShelfY : ℚ :=
    if slotTargetLevel emptySlotIndex = 1 then
      shelfStartY + shelfThickness + 1/2
    else shelfStartY + compartmentHeight + shelfThickness + 1/2
  (bds.position.1 + shelfX + cargoShelfX, cargoShelfY,
   bds.position.2.2 + shelfZ)

/-- Outcome of `handleRemoveCargo`. -/
inductive RemoveOutcome where
  | noop
  | capacityError
  | storedAt (slotIndex : ℕ)
  | abandoned
  deriving Repr, DecidableEq

/-- The synchronous part of `handleRemoveCargo` (Scene.tsx:2766-2855,
3275-3294): locate the selected drone and its cargo, find the first station
point within horizontal distance 2 of the drone and a docking station bound
to it; reject with a capacity alert when all shelf slots are occupied
(Scene.tsx:2796-2800); otherwise detach the cargo onto the lift platform
(Scene.tsx:2820-2841); with no bound station nearby, the cargo is deleted
(`handleCargoDelete`, Scene.tsx:3275-3277).  Returns the outcome and the new
drone, cargo and docking-station collections. -/
def handleRemoveCargo (selId : String) (drones : List DroneData)
    (stationPoints : List StationPointData)
    (dockingStations : List DockingStationData) (cargos : List CargoData) :
    RemoveOutcome × List DroneData × List CargoData × List DockingStationData :=
  match drones.find? (fun d => decide (d.id = selId)) with
  | none => (.noop, drones, cargos, dockingStations)
  | some selectedDrone =>
    match selectedDrone.cargoId with
    | none => (.noop, drones, cargos, dockingStations)
    | some cid =>
      let nearbyStation : Option StationPointData :=
        stationPoints.find? (fun station =>
          decide (horizDistSq station.position selectedDrone.position ≤ 4))
      let boundDockingStation : Option DockingStationData :=
        match nearbyStation with
        | some ns =>
          dockingStations.find? (fun ds : DockingStationData =>
            decide (ds.boundStationId = some ns.id))
        | none => none
      match boundDockingStation with
      | some bds =>
        match cargos.find? (fun cargo : CargoData => decide (cargo.id = cid)) with
        | none => (.noop, drones, cargos, dockingStations)
        | some _ =>
          let shelfOccupancy := bds.shelfOccupancy.getD [false, false, false, false]
          match jsFindIndex (fun occupied => !occupied) shelfOccupancy with
          | none => (.capacityError, drones, cargos, dockingStations)
          | some emptySlotIndex =>
            (.storedAt emptySlotIndex,
             drones.map (fun d : DroneData =>
               if d.id = selId then { d with cargoId := none } else d),
             cargos.map (fun cargo : CargoData =>
               if cargo.id = cid then
                 { cargo with position := cargoLiftSurfacePosition bds,
                              droneId := "" }
               else cargo),
             dockingStations)
      | none =>
        (.abandoned, (handleCargoDelete cid drones cargos).1,
         (handleCargoDelete cid drones cargos).2, dockingStations)

/-- The store-on-arrival step (Scene.tsx:3026-3072): once the lift reports
arrival, teleport the cargo to its fixed shelf coordinate and mark the
captured occupancy slot occupied. -/
def storeOnArrival (bdsId : String) (shelfOccupancy : List Bool)
    (emptySlotIndex : ℕ) (finalCargoPosition : Vec3) (currentCargoId : String)
    (dockingStations : List DockingStationData) (cargos : List CargoData) :
    List DockingStationData × List CargoData :=
  (dockingStations.map (fun st =>
      if st.id = bdsId then
        { st with shelfOccupancy := some (shelfOccupancy.set emptySlotIndex true) }
      else st),
   cargos.map (fun cargo =>
      if cargo.id = currentCargoId then
        { cargo with position := finalCargoPosition }
      else cargo))

theorem jsFindIndex_lowest {l : List Bool} {k : ℕ}
    (h : jsFindIndex (fun occupied => !occupied) l = some k) :
    (∀ j, j < k → l.getD j false = true) ∧ l.getD k false = false := by
  induction l generalizing k with
  | nil => cases h
  | cons b l ih =>
    rw [jsFindIndex] at h
    cases b with
    | false =>
      simp at h
      subst h
      exact ⟨fun j hj => absurd hj (Nat.not_lt_zero j), rfl⟩
    | true =>
      simp at h
      obtain ⟨k', hk', hkk⟩ := h
      obtain ⟨hlow, hat⟩ := ih hk'
      subst hkk
      constructor
      · intro j hj
        cases j with
        | zero => rfl
        | succ j' =>
          rw [List.getD_cons_succ]
          exact hlow j' (by omega)
      · rw [List.getD_cons_succ]
        exact hat

theorem count_set_true {l : List Bool} {k : ℕ} (hlen : k < l.length)
    (hk : l.getD k false = false) :
    (l.set k true).count true = l.count true + 1 := by
  induction l generalizing k with
  | nil => cases hlen
  | cons b l ih =>
    cases k with
    | zero =>
      have hb : b = false := by
        rw [List.getD_cons_zero] at hk
        exact hk
      rw [List.set_cons_zero, hb]
      rw [List.count_cons, List.count_cons]
      simp
    | succ k' =>
      rw [List.set_cons_succ]
      rw [List.count_cons, List.count_cons]
      rw [List.getD_cons_succ] at hk
      have := ih (by simpa using Nat.lt_of_succ_lt_succ hlen) hk
      omega

theorem jsFindIndex_none_of_all {l : List Bool} (h : ∀ b ∈ l, b = true) :
    jsFindIndex (fun occupied => !occupied) l = none := by
  induction l with
  | nil => rfl
  | cons b l ih =>
    rw [jsFindIndex]
    have hb : b = true := h b (List.mem_cons_self b l)
    rw [hb]
    simp only [Bool.not_true, Bool.false_eq_true, if_false]
    rw [ih fun x hx => h x (List.mem_cons_of_mem b hx)]
    rfl

theorem jsFindIndex_lt_length {α : Type} {p : α → Bool} {l : List α} {k : ℕ}
    (h : jsFindIndex p l = some k) : k < l.length := by
  induction l generalizing k with
  | nil => cases h
  | cons b l ih =>
    rw [jsFindIndex] at h
    split_ifs at h
    · rw [Option.some_inj] at h
      subst h
      exact Nat.succ_pos _
    · rw [Option.map_eq_some'] at h
      obtain ⟨k', hk', hkk⟩ := h
      subst hkk
      exact Nat.succ_lt_succ (ih hk')

/-- C3: a drone carrying a cargo, within the fixed radius of a waypoint
bound to a docking station whose four shelf slots are all occupied, gets a
user-visible capacity error from `removeCargo` and no collection changes
(Scene.tsx:2796-2800). -/
theorem removeCargo_capacity_rejected (selId : String)
    (drones : List DroneData) (points : List StationPointData)
    (stations : List DockingStationData) (cargos : List CargoData)
    (d : DroneData) (cid : String) (wp : StationPointData)
    (bds : DockingStationData) (c : CargoData)
    (hfind : drones.find? (fun x => decide (x.id = selId)) = some d)
    (hcid : d.cargoId = some cid)
    (hnear : points.find? (fun station =>
      decide (horizDistSq station.position d.position ≤ 4)) = some wp)
    (hbound : stations.find? (fun ds : DockingStationData =>
      decide (ds.boundStationId = some wp.id)) = some bds)
    (hcargo : cargos.find? (fun cargo : CargoData =>
      decide (cargo.id = cid)) = some c)
    (hfull : ∀ b ∈ bds.shelfOccupancy.getD [false, false, false, false], b = true) :
    handleRemoveCargo selId drones points stations cargos =
      (.capacityError, drones, cargos, stations) := by
  simp only [handleRemoveCargo, hfind, hcid, hnear, hbound, hcargo,
    jsFindIndex_none_of_all hfull]

/-- The sample carrying drone placed at the sample waypoint. -/
def sampleDroneAtW1 : DroneData :=
  { sampleDroneCarrying with position := (10, 0, 10) }

/-- The sample bound docking station with a full shelf. -/
def sampleStationFull : DockingStationData :=
  { sampleStationBound with shelfOccupancy := some [true, true, true, true] }

/-- The sample bound docking station with 3 of 4 slots occupied. -/
def sampleStationThree : DockingStationData :=
  { sampleStationBound with shelfOccupancy := some [true, true, true, false] }

theorem removeCargo_capacity_rejected_witness :
    handleRemoveCargo "d1" [sampleDroneAtW1] [sampleWaypointLanding]
        [sampleStationFull] [sampleCargoC1] =
      (.capacityError, [sampleDroneAtW1], [sampleCargoC1], [sampleStationFull]) := by
  have hnear : List.find? (fun station =>
      decide (horizDistSq station.position sampleDroneAtW1.position ≤ 4))
      [sampleWaypointLanding] = some sampleWaypointLanding := by
    apply List.find?_cons_of_pos
    rw [decide_eq_true_eq]
    norm_num [horizDistSq, sampleWaypointLanding, sampleDroneAtW1,
      sampleDroneCarrying, sampleDroneD1]
  exact removeCargo_capacity_rejected "d1" [sampleDroneAtW1]
    [sampleWaypointLanding] [sampleStationFull] [sampleCargoC1]
    sampleDroneAtW1 "c1" sampleWaypointLanding sampleStationFull sampleCargoC1
    (by decide) (by decide) hnear (by decide) (by decide) (by decide)

/-- C4: with at least one empty shelf slot, `removeCargo` reports the
lowest-index empty slot, clears the drone's `cargoId` and the cargo's
`droneId`, places the cargo at the lift-platform surface position computed
from the station's current `liftPosition`, and the store-on-arrival step
marks exactly that slot occupied — with 3 of 4 slots previously occupied the
resulting occupancy has exactly 4 `true` entries. -/
theorem removeCargo_stores_lowest_slot (selId : String)
    (drones : List DroneData) (points : List StationPointData)
    (stations : List DockingStationData) (cargos : List CargoData)
    (d : DroneData) (cid : String) (wp : StationPointData)
    (bds : DockingStationData) (c : CargoData) (occ : List Bool) (k : ℕ)
    (hfind : drones.find? (fun x => decide (x.id = selId)) = some d)
    (hcid : d.cargoId = some cid)
    (hnear : points.find? (fun station =>
      decide (horizDistSq station.position d.position ≤ 4)) = some wp)
    (hbound : stations.find? (fun ds : DockingStationData =>
      decide (ds.boundStationId = some wp.id)) = some bds)
    (hcargo : cargos.find? (fun cargo : CargoData =>
      decide (cargo.id = cid)) = some c)
    (hocc : bds.shelfOccupancy.getD [false, false, false, false] = occ)
    (hk : jsFindIndex (fun occupied => !occupied) occ = some k) :
    (handleRemoveCargo selId drones points stations cargos).1 = .storedAt k ∧
      (∀ d' ∈ (handleRemoveCargo selId drones points stations cargos).2.1,
        d'.id = selId → d'.cargoId = none) ∧
      (∀ c' ∈ (handleRemoveCargo selId drones points stations cargos).2.2.1,
        c'.id = cid →
          c'.droneId = "" ∧ c'.position = cargoLiftSurfacePosition bds) ∧
      (∀ j, j < k → occ.getD j false = true) ∧ occ.getD k false = false ∧
      (∀ st ∈ (storeOnArrival bds.id occ k (cargoShelfPosition bds k) cid
          stations cargos).1,
        st.id = bds.id → st.shelfOccupancy = some (occ.set k true)) ∧
      (occ.count true = 3 → (occ.set k true).count true = 4) := by
  have hred : handleRemoveCargo selId drones points stations cargos =
      (.storedAt k,
       drones.map (fun x : DroneData =>
         if x.id = selId then { x with cargoId := none } else x),
       cargos.map (fun x : CargoData =>
         if x.id = cid then
           { x with position := cargoLiftSurfacePosition bds, droneId := "" }
         else x),
       stations) := by
    simp only [handleRemoveCargo, hfind, hcid, hnear, hbound, hcargo, hocc, hk]
  obtain ⟨hlow, hat⟩ := jsFindIndex_lowest hk
  refine ⟨by rw [hred], ?_, ?_, hlow, hat, ?_, ?_⟩
  · intro d' hd' hid
    rw [hred] at hd'
    obtain ⟨a, ha, hfa⟩ := List.mem_map.mp hd'
    by_cases hsel : a.id = selId
    · rw [if_pos hsel] at hfa
      rw [← hfa]
    · rw [if_neg hsel] at hfa
      rw [← hfa] at hid
      exact absurd hid hsel
  · intro c' hc' hid
    rw [hred] at hc'
    obtain ⟨a, ha, hfa⟩ := List.mem_map.mp hc'
    by_cases hcd : a.id = cid
    · rw [if_pos hcd] at hfa
      rw [← hfa]
      exact ⟨rfl, rfl⟩
    · rw [if_neg hcd] at hfa
      rw [← hfa] at hid
      exact absurd hid hcd
  · intro st hst hid
    have hst' : st ∈ stations.map (fun x : DockingStationData =>
        if x.id = bds.id then
          { x with shelfOccupancy := some (occ.set k true) }
        else x) := hst
    obtain ⟨a, ha, hfa⟩ := List.mem_map.mp hst'
    by_cases hb : a.id = bds.id
    · rw [if_pos hb] at hfa
      rw [← hfa]
    · rw [if_neg hb] at hfa
      rw [← hfa] at hid
      exact absurd hid hb
  · intro hcount
    have hlen : k < occ.length := jsFindIndex_lt_length hk
    rw [count_set_true hlen hat, hcount]

theorem removeCargo_stores_lowest_slot_witness :
    (handleRemoveCargo "d1" [sampleDroneAtW1] [sampleWaypointLanding]
        [sampleStationThree] [sampleCargoC1]).1 = RemoveOutcome.storedAt 3 ∧
      (([true, true, true, false] : List Bool).set 3 true).count true = 4 := by
  have hnear : List.find? (fun station =>
      decide (horizDistSq station.position sampleDroneAtW1.position ≤ 4))
      [sampleWaypointLanding] = some sampleWaypointLanding := by
    apply List.find?_cons_of_pos
    rw [decide_eq_true_eq]
    norm_num [horizDistSq, sampleWaypointLanding, sampleDroneAtW1,
      sampleDroneCarrying, sampleDroneD1]
  have h := removeCargo_stores_lowest_slot "d1" [sampleDroneAtW1]
    [sampleWaypointLanding] [sampleStationThree] [sampleCargoC1]
    sampleDroneAtW1 "c1" sampleWaypointLanding sampleStationThree sampleCargoC1
    [true, true, true, false] 3
    (by decide) (by decide) hnear (by decide) (by decide) (by decide)
    (by decide)
  exact ⟨h.1, h.2.2.2.2.2.2 (by decide)⟩

/-! ## Asset-id allocation (Scene.tsx:562-564, 1115-1140, 1747-1792)

Per entity type the component keeps a counter (`useState(1)`); placement
stamps the new entity with the counter and increments it
(Scene.tsx:1126-1127); a `useEffect` re-syncs the counter to
`max(maxExistingNumber + 1, counter)` whenever the collection changes
(Scene.tsx:1747-1792).  `liveNums` are the sequence numbers parsed out of
the existing entities' asset ids; `assignedNums` is the history of every
number ever assigned (a ghost field used to state the property). -/

structure AllocState where
  counter : ℕ
  liveNums : List ℕ
  assignedNums : List ℕ
  deriving Repr, DecidableEq

/-- The `useEffect` re-sync (Scene.tsx:1747-1792): when the collection is
nonempty, the counter becomes `max (maxExisting + 1) counter`
(`Math.max(maxIdNum + 1, prevCounter)`, Scene.tsx:1760). -/
def syncCounter (s : AllocState) : AllocState :=
  if s.liveNums = [] then s
  else { s with counter := max (s.liveNums.foldr max 0 + 1) s.counter }

/-- Placement (Scene.tsx:1115-1140): the new entity's sequence number is the
current counter; the counter increments; the effect then re-syncs.  Returns
the new state and the assigned number. -/
def createOp (s : AllocState) : AllocState × ℕ :=
  (syncCounter
    { counter := s.counter + 1, liveNums := s.counter :: s.liveNums,
      assignedNums := s.counter :: s.assignedNums },
   s.counter)

/-- Deletion (Scene.tsx:1598-1701): the entity leaves the collection (its
number is never handed back to the counter); the effect then re-syncs. -/
def deleteOp (n : ℕ) (s : AllocState) : AllocState :=
  syncCounter { s with liveNums := s.liveNums.erase n }

inductive AllocOp where
  | create
  | delete (n : ℕ)
  deriving Repr, DecidableEq

def runAllocOps : List AllocOp → AllocState → AllocState
  | [], s => s
  | .create :: ops, s => runAllocOps ops (createOp s).1
  | .delete n :: ops, s => runAllocOps ops (deleteOp n s)

/-- The initial per-session state (`useState(1)`, Scene.tsx:562-564). -/
def initAllocState : AllocState :=
  { counter := 1, liveNums := [], assignedNums := [] }

/-- Allocator invariant: the counter exceeds every number ever assigned, and
live numbers are assigned numbers. -/
def allocInv (s : AllocState) : Prop :=
  (∀ n ∈ s.assignedNums, n < s.counter) ∧
    (∀ n ∈ s.liveNums, n ∈ s.assignedNums)

theorem syncCounter_fields (s : AllocState) :
    (syncCounter s).liveNums = s.liveNums ∧
      (syncCounter s).assignedNums = s.assignedNums ∧
      s.counter ≤ (syncCounter s).counter := by
  rw [syncCounter]
  split_ifs
  · exact ⟨rfl, rfl, le_rfl⟩
  · exact ⟨rfl, rfl, le_max_right _ _⟩

theorem allocInv_syncCounter {s : AllocState} (h : allocInv s) :
    allocInv (syncCounter s) := by
  obtain ⟨hl, ha, hc⟩ := syncCounter_fields s
  refine ⟨fun n hn => ?_, fun n hn => ?_⟩
  · rw [ha] at hn
    exact lt_of_lt_of_le (h.1 n hn) hc
  · rw [hl] at hn
    rw [ha]
    exact h.2 n hn

theorem allocInv_createOp {s : AllocState} (h : allocInv s) :
    allocInv (createOp s).1 := by
  apply allocInv_syncCounter
  refine ⟨fun n hn => ?_, fun n hn => ?_⟩
  · rcases List.mem_cons.mp hn with hn | hn
    · subst hn
      exact Nat.lt_succ_self _
    · exact Nat.lt_succ_of_lt (h.1 n hn)
  · rcases List.mem_cons.mp hn with hn | hn
    · subst hn
      exact List.mem_cons_self _ _
    · exact List.mem_cons_of_mem _ (h.2 n hn)

theorem allocInv_deleteOp {s : AllocState} (m : ℕ) (h : allocInv s) :
    allocInv (deleteOp m s) := by
  apply allocInv_syncCounter
  exact ⟨h.1, fun n hn => h.2 n (List.mem_of_mem_erase hn)⟩

theorem allocInv_runAllocOps (ops : List AllocOp) {s : AllocState}
    (h : allocInv s) : allocInv (runAllocOps ops s) := by
  induction ops generalizing s with
  | nil => exact h
  | cons op ops ih =>
    cases op with
    | create => exact ih (allocInv_createOp h)
    | delete n => exact ih (allocInv_deleteOp n h)

/-- C7: after any sequence of create and delete operations in one session,
the sequence number handed to the next created entity is strictly greater
than every number ever assigned before it (deleted entities' numbers
included), and strictly greater than every live entity's number (the
allocator continues past the maximum, tolerating gaps). -/
theorem assetId_monotonic (ops : List AllocOp) :
    (∀ n ∈ (runAllocOps ops initAllocState).assignedNums,
        n < (createOp (runAllocOps ops initAllocState)).2) ∧
      (∀ n ∈ (runAllocOps ops initAllocState).liveNums,
        n < (createOp (runAllocOps ops initAllocState)).2) := by
  have hinv : allocInv (runAllocOps ops initAllocState) :=
    allocInv_runAllocOps ops
      ⟨fun n hn => absurd hn (List.not_mem_nil n),
       fun n hn => absurd hn (List.not_mem_nil n)⟩
  exact ⟨fun n hn => hinv.1 n hn, fun n hn => hinv.1 n (hinv.2 n hn)⟩

theorem assetId_monotonic_witness :
    (createOp (runAllocOps [AllocOp.create, AllocOp.delete 1, AllocOp.create]
        initAllocState)).2 = 3 ∧
      1 < (createOp (runAllocOps [AllocOp.create, AllocOp.delete 1,
        AllocOp.create] initAllocState)).2 := by
  refine ⟨by decide, ?_⟩
  exact (assetId_monotonic [AllocOp.create, AllocOp.delete 1,
    AllocOp.create]).1 1 (by decide)

end UavSim
